import Mathlib

/-!
Verification of the route-handler glue of the plasmic login-protect-pages
repository.  The repository has three handlers:

* `Index` — `pages/index.tsx`: the public page served at the fixed root
  path, with a build-time `getStaticProps` step;
* `Catchall` — `pages/[...catchall].tsx` (server-prefetch variant): a
  login-protected catch-all page whose `getServerSideProps` step runs per
  request, fetching the page descriptor and pre-computing its query cache;
* `CatchallClient` — `pages/[...catchall].tsx` (client-fetch variant): the
  same catch-all route, but the per-request server step only derives the
  lookup path; the descriptor is fetched client-side through SWR.

External collaborators (`PLASMIC.maybeFetchComponentData`,
`extractPlasmicQueryData`) are modelled as explicit function parameters.
A JavaScript `TypeError` thrown by dereferencing a property of `undefined`
(as happens when `entryCompMetas[0]` is taken of an empty list and `.params`
is then read) is modelled by the `Except JsError` error channel.  To make
"no fetch was performed" provable, every server step also returns the list
of paths it passed to the descriptor-fetch collaborator, in order.
-/

/-- Metadata of one entry component of a page descriptor: the component's
display name and its declared route parameters. -/
structure EntryCompMeta where
  displayName : String
  params : List (String × String)
deriving Repr, DecidableEq

/-- A page descriptor (`ComponentRenderData` of the loader SDK): the list of
entry component metadata records. -/
structure ComponentRenderData where
  entryCompMetas : List EntryCompMeta
deriving Repr, DecidableEq

/-- Query parameters of the current route (`router.query`). -/
abbrev Query := List (String × String)

/-- The pre-computed query-data cache, an opaque key/value mapping. -/
abbrev QueryCache := List (String × String)

/-- A JavaScript runtime error.  `typeError` stands for the `TypeError`
thrown when a property of `undefined` is dereferenced. -/
inductive JsError where
  | typeError
deriving Repr, DecidableEq

/-- The `catchall` route parameter as Next.js delivers it in
`context.params`: a single string, an array of segment strings, or absent. -/
inductive CatchallParam where
  | str (s : String)
  | arr (xs : List String)
  | absent
deriving Repr, DecidableEq

/-- Lookup-path derivation shared verbatim by both catch-all variants:
`typeof catchall === 'string' ? catchall : Array.isArray(catchall) ?
`/${catchall.join('/')}` : '/'`. -/
def plasmicPath : CatchallParam → String
  | .str s => s
  | .arr xs => "/" ++ String.intercalate "/" xs
  | .absent => "/"

/-- What a page component renders: a framework error page with a status
code, the client variant's loading placeholder, or a Plasmic component
bound into the rendering context (`PlasmicRootProvider` receives the
descriptor, the query cache, the page params and the page query; the
component named `component` is rendered inside it). -/
inductive RenderOutput where
  | errorPage (statusCode : Nat)
  | loading
  | rendered (component : String) (pageParams : List (String × String))
      (pageQuery : Query) (prefetchedData : ComponentRenderData)
      (prefetchedQueryData : Option QueryCache)
deriving Repr, DecidableEq

namespace Index

/-- The fixed path loaded by the public page handler. -/
def pageToLoad : String := "/"

/-- Result of `getStaticProps`: props (descriptor, query cache) plus the
optional `revalidate` interval. -/
inductive GSPResult where
  | props (plasmicData : Option ComponentRenderData)
      (queryCache : Option QueryCache) (revalidate : Option Nat)
deriving Repr, DecidableEq

/-- Render function of `pages/index.tsx`: 404 when the descriptor is absent
or its entry list is empty; otherwise the first entry's component is
rendered with the entry's params and the router query. -/
def PlasmicLoaderPage (plasmicData : Option ComponentRenderData)
    (queryCache : Option QueryCache) (routerQuery : Query) : RenderOutput :=
  match plasmicData with
  | none => .errorPage 404
  | some d =>
    match d.entryCompMetas with
    | [] => .errorPage 404
    | pageMeta :: _ =>
      .rendered pageMeta.displayName pageMeta.params routerQuery d queryCache

/-- Build-time step of `pages/index.tsx`.  `fetch` models
`PLASMIC.maybeFetchComponentData`; `extractPlasmicQueryData` models the
query-data pre-computation (it receives the descriptor and the first
entry's params and display name, exactly what the JSX passes it).  The
second component of the result is the list of fetched paths.  Note the
source takes `entryCompMetas[0]` without an emptiness check: on an empty
list the subsequent `pageMeta.params` read throws. -/
def getStaticProps (fetch : String → Option ComponentRenderData)
    (extractPlasmicQueryData :
      ComponentRenderData → List (String × String) → String → QueryCache) :
    Except JsError GSPResult × List String :=
  let plasmicPath := pageToLoad
  match fetch plasmicPath with
  | none => (.ok (.props none none none), [plasmicPath])
  | some plasmicData =>
    match plasmicData.entryCompMetas.head? with
    | none => (.error .typeError, [plasmicPath])
    | some pageMeta =>
      let queryCache :=
        extractPlasmicQueryData plasmicData pageMeta.params pageMeta.displayName
      (.ok (.props (some plasmicData) (some queryCache) (some 60)),
        [plasmicPath])

end Index

namespace Catchall

/-- Result of the server-prefetch `getServerSideProps`: a redirect, or
props carrying the optional descriptor and query cache. -/
inductive SSPResult where
  | redirect (destination : String) (permanent : Bool)
  | props (plasmicData : Option ComponentRenderData)
      (queryCache : Option QueryCache)
deriving Repr, DecidableEq

/-- Render function of the server-prefetch catch-all page; textually
identical to `Index.PlasmicLoaderPage` in the source. -/
def PlasmicLoaderPage (plasmicData : Option ComponentRenderData)
    (queryCache : Option QueryCache) (routerQuery : Query) : RenderOutput :=
  match plasmicData with
  | none => .errorPage 404
  | some d =>
    match d.entryCompMetas with
    | [] => .errorPage 404
    | pageMeta :: _ =>
      .rendered pageMeta.displayName pageMeta.params routerQuery d queryCache

/-- Per-request server step of the server-prefetch catch-all page.  The
source hard-codes `isAuthorized = true`; it is a parameter here so the
unauthorized branch can be stated.  The second component of the result is
the list of fetched paths.  As in `Index.getStaticProps`, a present
descriptor with an empty entry list makes the `pageMeta.params` read
throw. -/
def getServerSideProps (isAuthorized : Bool) (catchall : CatchallParam)
    (fetch : String → Option ComponentRenderData)
    (extractPlasmicQueryData :
      ComponentRenderData → List (String × String) → String → QueryCache) :
    Except JsError SSPResult × List String :=
  let path := plasmicPath catchall
  if isAuthorized != true then
    (.ok (.redirect "/login" false), [])
  else
    match fetch path with
    | none => (.ok (.props none none), [path])
    | some plasmicData =>
      match plasmicData.entryCompMetas.head? with
      | none => (.error .typeError, [path])
      | some pageMeta =>
        let queryCache :=
          extractPlasmicQueryData plasmicData pageMeta.params
            pageMeta.displayName
        (.ok (.props (some plasmicData) (some queryCache)), [path])

end Catchall

namespace CatchallClient

/-- Result of the client-fetch variant's `getServerSideProps`: a redirect,
or props carrying only the derived lookup path. -/
inductive SSPResult where
  | redirect (destination : String) (permanent : Bool)
  | props (plasmicPath : String)
deriving Repr, DecidableEq

/-- Render function of the client-fetch catch-all page, as a function of
the SWR state `(data, error, isValidating)` and the router query.  The
guards are exactly the source's: error page on error; loading while a
fetch is in flight with no data; 404 when the fetch is settled and the
descriptor is absent or has no entries; otherwise
`plasmicData!.entryCompMetas[0]` is dereferenced — which throws when the
entry list is empty (reachable while revalidating). -/
def PlasmicLoaderPage (plasmicData : Option ComponentRenderData)
    (error : Bool) (isValidating : Bool) (routerQuery : Query) :
    Except JsError RenderOutput :=
  if error then
    .ok (.errorPage 500)
  else if isValidating && plasmicData.isNone then
    .ok .loading
  else if !isValidating &&
      (match plasmicData with
       | none => true
       | some d => d.entryCompMetas.isEmpty) then
    .ok (.errorPage 404)
  else
    match plasmicData with
    | none => .error .typeError
    | some d =>
      match d.entryCompMetas.head? with
      | none => .error .typeError
      | some pageMeta =>
        .ok (.rendered pageMeta.displayName pageMeta.params routerQuery d
          (some []))

/-- Per-request server step of the client-fetch catch-all page: derive the
lookup path, redirect when unauthorized, and otherwise return only the
path as props.  No fetch collaborator is even consulted; the fetched-path
trace is always empty. -/
def getServerSideProps (isAuthorized : Bool) (catchall : CatchallParam) :
    SSPResult × List String :=
  let path := plasmicPath catchall
  if isAuthorized != true then
    (.redirect "/login" false, [])
  else
    (.props path, [])

end CatchallClient

/-- C1: the derived lookup path is the segment string itself when the
catch-all parameter is a single string (used as-is, no leading slash
added); `/` followed by the segments joined with `/` when it is an array;
and `/` when it is absent. -/
theorem plasmicPath_spec (s : String) (xs : List String) :
    plasmicPath (.str s) = s ∧
    plasmicPath (.arr xs) = "/" ++ String.intercalate "/" xs ∧
    plasmicPath .absent = "/" :=
  ⟨rfl, rfl, rfl⟩

/-- C2: when the authorization result is false, both catch-all server steps
return a non-permanent redirect to `/login`, and neither performs a
page-descriptor fetch (the fetched-path trace is empty). -/
theorem unauthorized_redirect_no_fetch (isAuthorized : Bool)
    (c : CatchallParam) (fetch : String → Option ComponentRenderData)
    (pre : ComponentRenderData → List (String × String) → String → QueryCache)
    (h : isAuthorized = false) :
    Catchall.getServerSideProps isAuthorized c fetch pre
      = (.ok (.redirect "/login" false), []) ∧
    CatchallClient.getServerSideProps isAuthorized c
      = (.redirect "/login" false, []) := by
  subst h
  exact ⟨rfl, rfl⟩

/-- Witness for C2 at a concrete unauthorized request. -/
theorem unauthorized_redirect_no_fetch_witness :
    Catchall.getServerSideProps false (.arr ["secret", "area"])
        (fun _ => none) (fun _ _ _ => [])
      = (.ok (.redirect "/login" false), []) ∧
    CatchallClient.getServerSideProps false (.arr ["secret", "area"])
      = (.redirect "/login" false, []) :=
  unauthorized_redirect_no_fetch false (.arr ["secret", "area"])
    (fun _ => none) (fun _ _ _ => []) rfl

/-- C3: for a descriptor whose entry list is non-empty, both server-variant
render functions render the component named by the first entry's
`displayName` and pass that entry's `params` and the current query through
unchanged; the rendered component and its params are determined by the
first entry alone, so no later entry is used. -/
theorem render_uses_first_entry (m : EntryCompMeta)
    (rest : List EntryCompMeta) (qc : Option QueryCache) (q : Query) :
    Index.PlasmicLoaderPage (some ⟨m :: rest⟩) qc q
      = .rendered m.displayName m.params q ⟨m :: rest⟩ qc ∧
    Catchall.PlasmicLoaderPage (some ⟨m :: rest⟩) qc q
      = .rendered m.displayName m.params q ⟨m :: rest⟩ qc :=
  ⟨rfl, rfl⟩

/-- C4: on the server-prefetch variant with authorization true, an absent
descriptor makes the server step return empty props (no descriptor, no
cache) after the single fetch, and rendering those empty props is the 404
state. -/
theorem absent_descriptor_empty_props_404 (c : CatchallParam)
    (fetch : String → Option ComponentRenderData)
    (pre : ComponentRenderData → List (String × String) → String → QueryCache)
    (q : Query) (hf : fetch (plasmicPath c) = none) :
    Catchall.getServerSideProps true c fetch pre
      = (.ok (.props none none), [plasmicPath c]) ∧
    Catchall.PlasmicLoaderPage none none q = .errorPage 404 := by
  refine ⟨?_, rfl⟩
  simp only [Catchall.getServerSideProps, hf]
  rfl

/-- Witness for C4 at a concrete request whose path has no descriptor. -/
theorem absent_descriptor_empty_props_404_witness :
    Catchall.getServerSideProps true (.str "missing-page")
        (fun _ => none) (fun _ _ _ => [])
      = (.ok (.props none none), ["missing-page"]) ∧
    Catchall.PlasmicLoaderPage none none [] = .errorPage 404 :=
  absent_descriptor_empty_props_404 (.str "missing-page")
    (fun _ => none) (fun _ _ _ => []) [] rfl

/-- C5 counterexample: in the client-fetch variant, a present descriptor
with an empty entry list does not always render the 404 state — while a
revalidation fetch is in flight the render throws instead. -/
theorem empty_entries_404_cx :
    CatchallClient.PlasmicLoaderPage (some ⟨[]⟩) false true [("p", "2")]
      = .error .typeError ∧
    CatchallClient.PlasmicLoaderPage (some ⟨[]⟩) false true [("p", "2")]
      ≠ .ok (.errorPage 404) :=
  ⟨rfl, fun h => Except.noConfusion h⟩

/-- C5 amended: for a present descriptor with an empty entry list, the two
server-variant render functions return the 404 state for every query cache
and query (they take no authorization input, so the result is independent
of authorization), and the client-fetch variant returns the 404 state when
the fetch is settled without error. -/
theorem empty_entries_404_amended (d : ComponentRenderData)
    (qc : Option QueryCache) (q : Query) (hd : d.entryCompMetas = []) :
    Index.PlasmicLoaderPage (some d) qc q = .errorPage 404 ∧
    Catchall.PlasmicLoaderPage (some d) qc q = .errorPage 404 ∧
    CatchallClient.PlasmicLoaderPage (some d) false false q
      = .ok (.errorPage 404) := by
  refine ⟨?_, ?_, ?_⟩ <;>
    simp [Index.PlasmicLoaderPage, Catchall.PlasmicLoaderPage,
      CatchallClient.PlasmicLoaderPage, hd]

/-- Witness for the amended C5 at a concrete empty-entry descriptor. -/
theorem empty_entries_404_amended_witness :
    Index.PlasmicLoaderPage (some ⟨[]⟩) (some []) [] = .errorPage 404 ∧
    Catchall.PlasmicLoaderPage (some ⟨[]⟩) (some []) [] = .errorPage 404 ∧
    CatchallClient.PlasmicLoaderPage (some ⟨[]⟩) false false []
      = .ok (.errorPage 404) :=
  empty_entries_404_amended ⟨[]⟩ (some []) [] rfl

/-- C6 counterexample: at the state combination (no error, fetch in
flight, cached descriptor with empty entry list) the client render does
not produce any state at all — it throws instead of rendering a first
entry, so the claimed priority order fails at this combination. -/
theorem client_priority_cx :
    CatchallClient.PlasmicLoaderPage (some ⟨[]⟩) false true []
      = .error .typeError ∧
    (CatchallClient.PlasmicLoaderPage (some ⟨[]⟩) false true []).toOption
      = none :=
  ⟨rfl, rfl⟩

/-- C6 amended: the client render states are selected in the claimed
priority order — error state on a fetch error; loading while a fetch is in
flight with no data; 404 on a settled fetch with no descriptor or no
entries; and the first entry's component with an empty data cache whenever
the descriptor has a first entry — except at the combination (no error, in
flight, empty-entry descriptor), where the render dereferences the absent
first entry and throws. -/
theorem client_render_priority (d? : Option ComponentRenderData)
    (e v : Bool) (q : Query) :
    (e = true →
      CatchallClient.PlasmicLoaderPage d? e v q = .ok (.errorPage 500)) ∧
    (e = false → v = true → d? = none →
      CatchallClient.PlasmicLoaderPage d? e v q = .ok .loading) ∧
    (e = false → v = false → (∀ d, d? = some d → d.entryCompMetas = []) →
      CatchallClient.PlasmicLoaderPage d? e v q = .ok (.errorPage 404)) ∧
    (e = false → ∀ d m rest, d? = some d → d.entryCompMetas = m :: rest →
      CatchallClient.PlasmicLoaderPage d? e v q
        = .ok (.rendered m.displayName m.params q d (some []))) ∧
    (e = false → v = true → ∀ d, d? = some d → d.entryCompMetas = [] →
      CatchallClient.PlasmicLoaderPage d? e v q = .error .typeError) := by
  refine ⟨?_, ?_, ?_, ?_, ?_⟩
  · intro he; subst he; rfl
  · intro he hv hd; subst he; subst hv; subst hd; rfl
  · intro he hv hall; subst he; subst hv
    cases d? with
    | none => rfl
    | some d =>
      have hd := hall d rfl
      simp [CatchallClient.PlasmicLoaderPage, hd]
  · intro he d m rest hd hm; subst he; subst hd
    cases v <;> simp [CatchallClient.PlasmicLoaderPage, hm]
  · intro he hv d hd hm; subst he; subst hv; subst hd
    simp [CatchallClient.PlasmicLoaderPage, hm]

/-- Witness for the amended C6, exercising each priority branch at a
concrete state. -/
theorem client_render_priority_witness :
    CatchallClient.PlasmicLoaderPage none true true []
      = .ok (.errorPage 500) ∧
    CatchallClient.PlasmicLoaderPage none false true [] = .ok .loading ∧
    CatchallClient.PlasmicLoaderPage none false false []
      = .ok (.errorPage 404) ∧
    CatchallClient.PlasmicLoaderPage (some ⟨[⟨"Home", []⟩]⟩) false true []
      = .ok (.rendered "Home" [] [] ⟨[⟨"Home", []⟩]⟩ (some [])) ∧
    CatchallClient.PlasmicLoaderPage (some ⟨[]⟩) false true [("x", "y")]
      = .error .typeError :=
  ⟨(client_render_priority none true true []).1 rfl,
   (client_render_priority none false true []).2.1 rfl rfl rfl,
   (client_render_priority none false false []).2.2.1 rfl rfl
     (fun _ h => Option.noConfusion h),
   (client_render_priority (some ⟨[⟨"Home", []⟩]⟩) false true []).2.2.2.1
     rfl ⟨[⟨"Home", []⟩]⟩ ⟨"Home", []⟩ [] rfl rfl,
   (client_render_priority (some ⟨[]⟩) false true [("x", "y")]).2.2.2.2
     rfl rfl ⟨[]⟩ rfl rfl⟩

/-- C7 counterexample: when the fetch at the root path returns a present
descriptor whose entry list is empty, the build-time step of the public
page handler throws instead of returning the descriptor, a cache and a
revalidation interval of 60. -/
theorem getStaticProps_empty_entries_cx :
    Index.getStaticProps (fun _ => some ⟨[]⟩) (fun _ _ _ => [])
      = (.error .typeError, ["/"]) ∧
    (Index.getStaticProps (fun _ => some ⟨[]⟩) (fun _ _ _ => [])).1
      ≠ .ok (.props (some ⟨[]⟩) (some []) (some 60)) :=
  ⟨rfl, fun h => Except.noConfusion h⟩

/-- C7 amended: the build-time step fetches the descriptor for exactly the
fixed root path `/` (for every fetch outcome the fetched-path trace is
`["/"]`), and whenever the descriptor is present with a non-empty entry
list it returns the descriptor together with the pre-computed cache of the
first entry and a revalidation interval of exactly 60; a present
descriptor with an empty entry list instead makes the step throw. -/
theorem getStaticProps_spec (fetch : String → Option ComponentRenderData)
    (pre : ComponentRenderData → List (String × String) → String → QueryCache) :
    (Index.getStaticProps fetch pre).2 = ["/"] ∧
    (∀ d m rest, fetch "/" = some d → d.entryCompMetas = m :: rest →
      (Index.getStaticProps fetch pre).1
        = .ok (.props (some d) (some (pre d m.params m.displayName))
            (some 60))) := by
  constructor
  · cases hf : fetch "/" with
    | none => simp [Index.getStaticProps, Index.pageToLoad, hf]
    | some d =>
      cases hm : d.entryCompMetas.head? with
      | none => simp [Index.getStaticProps, Index.pageToLoad, hf, hm]
      | some m => simp [Index.getStaticProps, Index.pageToLoad, hf, hm]
  · intro d m rest hf hm
    simp [Index.getStaticProps, Index.pageToLoad, hf, hm]

/-- Witness for the amended C7 at a concrete one-entry descriptor. -/
theorem getStaticProps_spec_witness :
    (Index.getStaticProps (fun _ => some ⟨[⟨"Home", [("a", "1")]⟩]⟩)
        (fun _ ps n => ("cache", n) :: ps)).2 = ["/"] ∧
    (Index.getStaticProps (fun _ => some ⟨[⟨"Home", [("a", "1")]⟩]⟩)
        (fun _ ps n => ("cache", n) :: ps)).1
      = .ok (.props (some ⟨[⟨"Home", [("a", "1")]⟩]⟩)
          (some [("cache", "Home"), ("a", "1")]) (some 60)) :=
  ⟨(getStaticProps_spec (fun _ => some ⟨[⟨"Home", [("a", "1")]⟩]⟩)
      (fun _ ps n => ("cache", n) :: ps)).1,
   (getStaticProps_spec (fun _ => some ⟨[⟨"Home", [("a", "1")]⟩]⟩)
      (fun _ ps n => ("cache", n) :: ps)).2
     ⟨[⟨"Home", [("a", "1")]⟩]⟩ ⟨"Home", [("a", "1")]⟩ [] rfl rfl⟩

/-- C8: for any authorized request, the client-fetch variant's server step
returns only the derived lookup path as props with an empty fetched-path
trace (it takes no fetch or pre-computation collaborator at all), and the
client render of a descriptor with a first entry uses an empty query
cache. -/
theorem client_variant_no_fetch (a : Bool) (c : CatchallParam)
    (ha : a = true) :
    CatchallClient.getServerSideProps a c = (.props (plasmicPath c), []) ∧
    (∀ (d : ComponentRenderData) (m : EntryCompMeta)
        (rest : List EntryCompMeta) (v : Bool) (q : Query),
      d.entryCompMetas = m :: rest →
      CatchallClient.PlasmicLoaderPage (some d) false v q
        = .ok (.rendered m.displayName m.params q d (some []))) := by
  subst ha
  constructor
  · rfl
  · intro d m rest v q hm
    cases v <;> simp [CatchallClient.PlasmicLoaderPage, hm]

/-- Witness for C8 at a concrete authorized request. -/
theorem client_variant_no_fetch_witness :
    CatchallClient.getServerSideProps true (.arr ["a", "b"])
      = (.props "/a/b", []) ∧
    CatchallClient.PlasmicLoaderPage (some ⟨[⟨"Page", []⟩]⟩) false false
        [("q", "1")]
      = .ok (.rendered "Page" [] [("q", "1")] ⟨[⟨"Page", []⟩]⟩ (some [])) :=
  ⟨(client_variant_no_fetch true (.arr ["a", "b"]) rfl).1,
   (client_variant_no_fetch true (.arr ["a", "b"]) rfl).2
     ⟨[⟨"Page", []⟩]⟩ ⟨"Page", []⟩ [] false [("q", "1")] rfl⟩

/-- C9: both server-prefetch steps index the first entry of a present
descriptor without checking non-emptiness, so for a present descriptor
with an empty entry list the read of the entry's declared params throws:
the server-side error branch is reached after the fetch, before any 404
state could be rendered. -/
theorem empty_descriptor_server_error :
    Index.getStaticProps (fun _ => some ⟨[]⟩) (fun _ _ _ => [("k", "v")])
      = (.error .typeError, ["/"]) ∧
    Catchall.getServerSideProps true (.str "somepage")
        (fun _ => some ⟨[]⟩) (fun _ _ _ => [("k", "v")])
      = (.error .typeError, ["somepage"]) :=
  ⟨rfl, rfl⟩

/-- C10: in the client-fetch variant, while a revalidation fetch is in
flight (`isValidating = true`) and the cached descriptor has an empty
entry list, the settled-only 404 guard and the no-data loading guard are
both skipped and the render dereferences the absent first entry: the
result is a thrown error, neither the 404 state nor the loading state. -/
theorem client_inflight_empty_deref :
    CatchallClient.PlasmicLoaderPage (some ⟨[]⟩) false true [("k", "v")]
      = .error .typeError ∧
    CatchallClient.PlasmicLoaderPage (some ⟨[]⟩) false true [("k", "v")]
      ≠ .ok (.errorPage 404) ∧
    CatchallClient.PlasmicLoaderPage (some ⟨[]⟩) false true [("k", "v")]
      ≠ .ok .loading :=
  ⟨rfl, fun h => Except.noConfusion h, fun h => Except.noConfusion h⟩
